import Mathlib

/-!
Verification of the ai-drawing-management-system ingestion/analysis core.

Shallow embedding of the backend's drawing pipeline:
  * `app/services/drawing_service.py` — `_correct_drawing_number`,
    `DrawingService._run_analysis`, `DrawingService.create_drawing`,
    `DrawingService.update_drawing` / `approve_drawing` / `unapprove_drawing`
  * `app/utils/file_manager.py` — `sanitize_filename`,
    `generate_drawing_filename`, `flatten_pdf`, `rotate_pdf_content`,
    `auto_correct_rotation`
  * `app/services/claude_client.py` — the tenacity retry decorator on
    `invoke_with_text` and its error classification
  * `app/api/v1/drawings.py` — `reanalyze_drawing`

Python strings are modelled as `String` / `List Char`, database sessions as
explicit state records with an explicit list of committed snapshots, and
fallible calls as `Option` / `Except` values.
-/

namespace AiDrawing

/-! ## Drawing-number OCR correction (`_correct_drawing_number`) -/

/-- List-level body of `_correct_drawing_number` (drawing_service.py:87-115).
Python: if the value is empty return it; if `value.upper().startswith("NA")`
and `len(value) >= 9`, and `chars[3].upper() != "T"`, set `chars[3] = "T"`. -/
def correctDrawingNumberList (l : List Char) : List Char :=
  if l = [] then l
  else if (l.map Char.toUpper).take 2 = ['N', 'A'] ∧ 9 ≤ l.length then
    if 4 ≤ l.length ∧ (l.getD 3 ' ').toUpper ≠ 'T' then l.set 3 'T'
    else l
  else l

/-- `_correct_drawing_number` on strings (empty string models Python's
falsy-value early return; the function is the identity there either way). -/
def correct_drawing_number (value : String) : String :=
  ⟨correctDrawingNumberList value.data⟩

/-- The transform exactly as the claim states it: value starts with "NA"
case-insensitively, has length ≥ 9, and the character at index 3 uppercased
is not 'T' — then that character becomes 'T'; otherwise unchanged. -/
def claimDrawingNumberTransform (l : List Char) : List Char :=
  if 9 ≤ l.length ∧ (l.take 2).map Char.toUpper = ['N', 'A'] ∧
      (l.get? 3).map Char.toUpper ≠ some 'T' then
    l.set 3 'T'
  else l

theorem correctDrawingNumberList_eq_claim (l : List Char) :
    correctDrawingNumberList l = claimDrawingNumberTransform l := by
  unfold correctDrawingNumberList claimDrawingNumberTransform
  by_cases hnil : l = []
  · subst hnil; simp
  · rw [if_neg hnil]
    have hmt : (l.map Char.toUpper).take 2 = (l.take 2).map Char.toUpper :=
      (List.map_take Char.toUpper l 2).symm
    by_cases hlen : 9 ≤ l.length
    · have h3 : 3 < l.length := by omega
      have h4 : 4 ≤ l.length := by omega
      have hget : l.get? 3 = some (l.getD 3 ' ') := by
        rw [List.getD_eq_getElem l ' ' h3, List.get?_eq_get h3]
        simp
      have hgetmap : (l.get? 3).map Char.toUpper =
          some ((l.getD 3 ' ').toUpper) := by
        rw [hget]; rfl
      by_cases hna : (l.take 2).map Char.toUpper = ['N', 'A']
      · by_cases ht : (l.getD 3 ' ').toUpper = 'T'
        · rw [if_pos ⟨hmt ▸ hna, hlen⟩,
            if_neg (fun h => h.2 ht),
            if_neg (fun h => h.2.2 (by rw [hgetmap, ht]))]
        · rw [if_pos ⟨hmt ▸ hna, hlen⟩, if_pos ⟨h4, ht⟩,
            if_pos ⟨hlen, hna,
              by rw [hgetmap]; exact fun hc => ht (Option.some.inj hc)⟩]
      · rw [if_neg (fun h => hna (hmt ▸ h.1)),
          if_neg (fun h => hna h.2.1)]
    · rw [if_neg (fun h => hlen h.2), if_neg (fun h => hlen h.1)]

/-- C7: the drawing-number OCR correction is exactly the claimed deterministic
string transform: for a value starting with "NA" case-insensitively of length
≥ 9 whose character at index 3 uppercased is not 'T', that character is
replaced by 'T'; every other value is unchanged.  Checked on the spec's
fixtures "NAX13722D" → "NAXT3722D" and "NAXT3722D" unchanged, plus inputs
with different leading characters, short inputs and the empty input. -/
theorem correct_drawing_number_matches_claim :
    (∀ s : String,
        correct_drawing_number s = ⟨claimDrawingNumberTransform s.data⟩) ∧
    correct_drawing_number "NAX13722D" = "NAXT3722D" ∧
    correct_drawing_number "NAXT3722D" = "NAXT3722D" ∧
    correct_drawing_number "naxt3722d" = "naxt3722d" ∧
    correct_drawing_number "nax13722d" = "naxT3722d" ∧
    correct_drawing_number "XAX13722D" = "XAX13722D" ∧
    correct_drawing_number "NAX1372" = "NAX1372" ∧
    correct_drawing_number "" = "" :=
  ⟨fun s => congrArg String.mk (correctDrawingNumberList_eq_claim s.data),
    by decide, by decide, by decide, by decide, by decide, by decide, by decide⟩

/-! ## Filename sanitization (`FileManager.sanitize_filename`,
`FileManager.generate_drawing_filename`) -/

/-- The character class of `invalid_chars = r'[<>:"/\\|?*\x00-\x1f]'`
(file_manager.py:548). -/
def invalidFilenameChar (c : Char) : Bool :=
  c = '<' || c = '>' || c = ':' || c = '"' || c = '/' || c = '\\' ||
    c = '|' || c = '?' || c = '*' || c.toNat ≤ 0x1f

/-- `re.sub(invalid_chars, "_", text)`: replace every illegal character by an
underscore. -/
def replaceInvalid (l : List Char) : List Char :=
  l.map (fun c => if invalidFilenameChar c then '_' else c)

/-- `re.sub(r"_+", "_", sanitized)`: collapse every maximal run of
underscores to a single underscore. -/
def collapseUnderscoreRuns : List Char → List Char
  | [] => []
  | [c] => [c]
  | c₁ :: c₂ :: rest =>
    if c₁ = '_' ∧ c₂ = '_' then collapseUnderscoreRuns (c₂ :: rest)
    else c₁ :: collapseUnderscoreRuns (c₂ :: rest)

/-- `sanitized.strip("_")`: drop leading and trailing underscores. -/
def stripUnderscores (l : List Char) : List Char :=
  ((l.dropWhile (fun c => c = '_')).reverse.dropWhile
    (fun c => c = '_')).reverse

/-- Body of `FileManager.sanitize_filename` (file_manager.py:537-557). -/
def sanitizeChars (l : List Char) : List Char :=
  if stripUnderscores (collapseUnderscoreRuns (replaceInvalid l)) = [] then
    "unknown".data
  else stripUnderscores (collapseUnderscoreRuns (replaceInvalid l))

def sanitize_filename (text : String) : String := ⟨sanitizeChars text.data⟩

/-- Timestamp components fed to `timestamp.strftime("%Y%m%d%H%M%S")`. -/
structure Timestamp where
  year : Nat
  month : Nat
  day : Nat
  hour : Nat
  minute : Nat
  second : Nat
  deriving Repr, DecidableEq

def digitChar (d : Nat) : Char := "0123456789".data.getD (d % 10) '0'

/-- Zero-padded fixed-width decimal rendering of one strftime field. -/
def padDigits (width n : Nat) : List Char :=
  (List.range width).reverse.map (fun i => digitChar (n / 10 ^ i))

/-- `timestamp.strftime("%Y%m%d%H%M%S")` (file_manager.py:581). -/
def formatTimestamp (t : Timestamp) : List Char :=
  padDigits 4 t.year ++ padDigits 2 t.month ++ padDigits 2 t.day ++
    padDigits 2 t.hour ++ padDigits 2 t.minute ++ padDigits 2 t.second

/-- Python's `value or default`: `None` and the empty string both fall back
to the default (file_manager.py:584-590). -/
def pyOrDefault (v : Option String) (d : String) : String :=
  match v with
  | none => d
  | some s => if s = "" then d else s

/-- `FileManager.generate_drawing_filename` (file_manager.py:559-595):
`f"{timestamp_str}_{classification_str}_{drawing_number_str}_{created_by_str}.pdf"`
with each non-timestamp component sanitized after its absence fallback. -/
def generate_drawing_filename (timestamp : Timestamp)
    (classification : Option String) (drawingNumber : Option String)
    (createdBy : String) : String :=
  ⟨formatTimestamp timestamp ++ "_".data ++
    sanitizeChars (pyOrDefault classification "未分類").data ++ "_".data ++
    sanitizeChars (pyOrDefault drawingNumber "図番不明").data ++ "_".data ++
    sanitizeChars (pyOrDefault (some createdBy) "不明").data ++ ".pdf".data⟩

/-- Does the list contain two adjacent spaces (an uncollapsed whitespace
run)? -/
def hasDoubleWhitespace : List Char → Bool
  | c₁ :: c₂ :: rest =>
    (c₁ = ' ' && c₂ = ' ') || hasDoubleWhitespace (c₂ :: rest)
  | _ => false

/-- Does the list contain two adjacent underscores (an uncollapsed
underscore run)? -/
def hasDoubleUnderscore : List Char → Bool
  | c₁ :: c₂ :: rest =>
    (c₁ = '_' && c₂ = '_') || hasDoubleUnderscore (c₂ :: rest)
  | _ => false

theorem mem_collapseUnderscoreRuns :
    ∀ (l : List Char) (c : Char), c ∈ collapseUnderscoreRuns l → c ∈ l
  | [], c, h => by simp [collapseUnderscoreRuns] at h
  | [a], c, h => by rw [collapseUnderscoreRuns] at h; exact h
  | a :: b :: rest, c, h => by
    rw [collapseUnderscoreRuns] at h
    by_cases hab : a = '_' ∧ b = '_'
    · rw [if_pos hab] at h
      exact List.mem_cons_of_mem a (mem_collapseUnderscoreRuns (b :: rest) c h)
    · rw [if_neg hab] at h
      rcases List.mem_cons.mp h with h1 | h2
      · exact h1 ▸ List.mem_cons_self a (b :: rest)
      · exact List.mem_cons_of_mem a
          (mem_collapseUnderscoreRuns (b :: rest) c h2)

theorem mem_stripUnderscores {c : Char} {l : List Char}
    (h : c ∈ stripUnderscores l) : c ∈ l := by
  unfold stripUnderscores at h
  rw [List.mem_reverse] at h
  have h1 : c ∈ (l.dropWhile (fun c => c = '_')).reverse :=
    List.dropWhile_subset _ h
  rw [List.mem_reverse] at h1
  exact List.dropWhile_subset _ h1

theorem replaceInvalid_valid {c : Char} {l : List Char}
    (h : c ∈ replaceInvalid l) : invalidFilenameChar c = false := by
  unfold replaceInvalid at h
  rcases List.mem_map.mp h with ⟨a, _, ha⟩
  by_cases hia : invalidFilenameChar a
  · rw [if_pos hia] at ha
    rw [← ha]
    decide
  · rw [if_neg hia] at ha
    rw [← ha]
    exact Bool.of_not_eq_true hia

theorem sanitizeChars_valid {c : Char} {l : List Char}
    (h : c ∈ sanitizeChars l) : invalidFilenameChar c = false := by
  unfold sanitizeChars at h
  by_cases hempty :
      stripUnderscores (collapseUnderscoreRuns (replaceInvalid l)) = []
  · rw [hempty] at h
    simp only [if_pos rfl] at h
    fin_cases h <;> decide
  · rw [if_neg hempty] at h
    exact replaceInvalid_valid
      (mem_collapseUnderscoreRuns _ _ (mem_stripUnderscores h))

theorem digitChar_valid (d : Nat) : invalidFilenameChar (digitChar d) = false := by
  unfold digitChar
  have h : d % 10 < 10 := Nat.mod_lt d (by omega)
  set k := d % 10 with hk
  interval_cases k <;> decide

theorem padDigits_valid {c : Char} {width n : Nat}
    (h : c ∈ padDigits width n) : invalidFilenameChar c = false := by
  unfold padDigits at h
  rcases List.mem_map.mp h with ⟨i, _, hi⟩
  rw [← hi]
  exact digitChar_valid _

theorem formatTimestamp_valid {c : Char} {t : Timestamp}
    (h : c ∈ formatTimestamp t) : invalidFilenameChar c = false := by
  unfold formatTimestamp at h
  simp only [List.mem_append] at h
  rcases h with ((((h | h) | h) | h) | h) | h <;> exact padDigits_valid h

theorem data_mk (l : List Char) : (String.mk l).data = l := rfl

theorem collapseUnderscoreRuns_cons :
    ∀ (b : Char) (rest : List Char),
      ∃ t, collapseUnderscoreRuns (b :: rest) = b :: t
  | b, [] => ⟨[], by rw [collapseUnderscoreRuns]⟩
  | b, c :: r => by
    by_cases hbc : b = '_' ∧ c = '_'
    · obtain ⟨t, ht⟩ := collapseUnderscoreRuns_cons c r
      refine ⟨t, ?_⟩
      rw [collapseUnderscoreRuns, if_pos hbc, ht, hbc.1, hbc.2]
    · exact ⟨collapseUnderscoreRuns (c :: r),
        by rw [collapseUnderscoreRuns, if_neg hbc]⟩

theorem hasDoubleUnderscore_collapse :
    ∀ l : List Char, hasDoubleUnderscore (collapseUnderscoreRuns l) = false
  | [] => by rw [collapseUnderscoreRuns]; rfl
  | [a] => by rw [collapseUnderscoreRuns]; rfl
  | a :: b :: rest => by
    rw [collapseUnderscoreRuns]
    by_cases hab : a = '_' ∧ b = '_'
    · rw [if_pos hab]
      exact hasDoubleUnderscore_collapse (b :: rest)
    · rw [if_neg hab]
      obtain ⟨t, ht⟩ := collapseUnderscoreRuns_cons b rest
      have h2 := hasDoubleUnderscore_collapse (b :: rest)
      rw [ht] at h2
      rw [ht, hasDoubleUnderscore, h2, Bool.or_false]
      by_cases ha : a = '_'
      · by_cases hb : b = '_'
        · exact absurd ⟨ha, hb⟩ hab
        · simp [hb]
      · simp [ha]

theorem hasDoubleUnderscore_cons_false {a : Char} {z : List Char}
    (h : hasDoubleUnderscore (a :: z) = false) :
    hasDoubleUnderscore z = false := by
  cases z with
  | nil => rfl
  | cons b r =>
    rw [hasDoubleUnderscore] at h
    exact (Bool.or_eq_false_iff.mp h).2

theorem hasDoubleUnderscore_append_right :
    ∀ (x y : List Char), hasDoubleUnderscore (x ++ y) = false →
      hasDoubleUnderscore y = false
  | [], _, h => h
  | _ :: x', y, h =>
    hasDoubleUnderscore_append_right x' y (hasDoubleUnderscore_cons_false h)

theorem hasDoubleUnderscore_append_left :
    ∀ (x y : List Char), hasDoubleUnderscore (x ++ y) = false →
      hasDoubleUnderscore x = false
  | [], _, _ => rfl
  | [_], _, _ => rfl
  | a :: b :: r, y, h => by
    rw [List.cons_append, List.cons_append, hasDoubleUnderscore] at h
    obtain ⟨h1, h2⟩ := Bool.or_eq_false_iff.mp h
    have h3 : hasDoubleUnderscore (b :: r) = false :=
      hasDoubleUnderscore_append_left (b :: r) y (by rw [List.cons_append]; exact h2)
    rw [hasDoubleUnderscore, h1, h3]
    rfl

theorem hasDoubleUnderscore_strip {l : List Char}
    (h : hasDoubleUnderscore l = false) :
    hasDoubleUnderscore (stripUnderscores l) = false := by
  unfold stripUnderscores
  have hd : hasDoubleUnderscore (l.dropWhile (fun c => c = '_')) = false := by
    refine hasDoubleUnderscore_append_right (l.takeWhile (fun c => c = '_')) _ ?_
    rw [List.takeWhile_append_dropWhile]
    exact h
  have hsplit : l.dropWhile (fun c => c = '_') =
      ((l.dropWhile (fun c => c = '_')).reverse.dropWhile
        (fun c => c = '_')).reverse ++
      ((l.dropWhile (fun c => c = '_')).reverse.takeWhile
        (fun c => c = '_')).reverse := by
    conv_lhs => rw [← List.reverse_reverse (l.dropWhile (fun c => c = '_')),
      ← List.takeWhile_append_dropWhile
        (p := fun c => c = '_')
        (l := (l.dropWhile (fun c => c = '_')).reverse)]
    rw [List.reverse_append]
  exact hasDoubleUnderscore_append_left _ _ (hsplit ▸ hd)

theorem hasDoubleUnderscore_sanitizeChars (l : List Char) :
    hasDoubleUnderscore (sanitizeChars l) = false := by
  unfold sanitizeChars
  by_cases hempty :
      stripUnderscores (collapseUnderscoreRuns (replaceInvalid l)) = []
  · rw [if_pos hempty]
    decide
  · rw [if_neg hempty]
    exact hasDoubleUnderscore_strip (hasDoubleUnderscore_collapse _)

/-- C8 counterexample: `sanitize_filename` does not collapse whitespace
runs — only underscore runs.  The input "a  b" (two interior spaces) is
returned verbatim, so the sanitized output still contains an uncollapsed
whitespace run, contradicting the claim that whitespace runs are
collapsed. -/
theorem sanitize_filename_whitespace_not_collapsed :
    sanitize_filename "a  b" = "a  b" ∧
    hasDoubleWhitespace (sanitize_filename "a  b").data = true := by
  exact ⟨by decide, by decide⟩

/-- C8 amended: canonical filename generation is deterministic (a pure
function of timestamp, classification, drawing-number and author), of the
form `timestamp_classification_drawingnumber_author.pdf`; each
non-timestamp component has illegal filesystem characters
(`<>:"/\|?*` and control characters) replaced by underscores, UNDERSCORE
runs (not whitespace runs) collapsed, leading/trailing underscores
stripped, and a fixed placeholder substituted when the source value is
absent or sanitizes to empty; no illegal character ever appears in the
output string. -/
theorem generate_drawing_filename_amended :
    (∀ (t : Timestamp) (c d : Option String) (a : String),
      ∀ ch ∈ (generate_drawing_filename t c d a).data,
        invalidFilenameChar ch = false) ∧
    (∀ s : String, ∀ ch ∈ (sanitize_filename s).data,
      invalidFilenameChar ch = false) ∧
    (∀ s : String, hasDoubleUnderscore (sanitize_filename s).data = false) ∧
    sanitize_filename "a<b>:c" = "a_b_c" ∧
    sanitize_filename "__a__b__" = "a_b" ∧
    sanitize_filename "<<<>>>" = "unknown" ∧
    generate_drawing_filename ⟨2024, 1, 2, 3, 4, 5⟩ (some "部品図")
      (some "NAXT3722D") "host" = "20240102030405_部品図_NAXT3722D_host.pdf" ∧
    generate_drawing_filename ⟨2024, 1, 2, 3, 4, 5⟩ none none "" =
      "20240102030405_未分類_図番不明_不明.pdf" := by
  refine ⟨?_, ?_, ?_, by decide, by decide, by decide, by decide, by decide⟩
  · intro t c d a ch hch
    simp only [generate_drawing_filename, data_mk, List.mem_append] at hch
    rcases hch with ((((((h | h) | h) | h) | h) | h) | h) | h
    · exact formatTimestamp_valid h
    · fin_cases h; decide
    · exact sanitizeChars_valid h
    · fin_cases h; decide
    · exact sanitizeChars_valid h
    · fin_cases h; decide
    · exact sanitizeChars_valid h
    · fin_cases h <;> decide
  · intro s ch hch
    simp only [sanitize_filename, data_mk] at hch
    exact sanitizeChars_valid hch
  · intro s
    exact hasDoubleUnderscore_sanitizeChars s.data

/-- Witness for `generate_drawing_filename_amended`: each hypothesis of the
universally quantified conjuncts discharged at a concrete input. -/
theorem generate_drawing_filename_amended_witness :
    ('h' ∈ (generate_drawing_filename ⟨2024, 1, 2, 3, 4, 5⟩ (some "部品図")
      (some "NAXT3722D") "host").data) ∧
    invalidFilenameChar 'h' = false ∧
    ('x' ∈ (sanitize_filename "x").data) ∧
    invalidFilenameChar 'x' = false := by
  refine ⟨by decide, ?_, by decide, ?_⟩
  · exact generate_drawing_filename_amended.1 ⟨2024, 1, 2, 3, 4, 5⟩
      (some "部品図") (some "NAXT3722D") "host" 'h' (by decide)
  · exact generate_drawing_filename_amended.2.1 "x" 'x' (by decide)

/-! ## PDF rotation model (`FileManager.flatten_pdf`,
`FileManager.rotate_pdf_content`, `FileManager.auto_correct_rotation`) and
the pipeline's rotation step (`_run_analysis` Step 1) -/

/-- Abstract state of a stored PDF page: the rotation metadata entry and the
physical orientation of the drawn content (degrees clockwise, mod 360).  A
viewer displays the content turned by the metadata angle on top of the
content's own orientation. -/
structure PdfFile where
  metaRotation : Nat
  contentRotation : Nat
  deriving Repr, DecidableEq

/-- `FileManager.flatten_pdf` (file_manager.py:63-176): when the first
page's metadata rotation is 0 the file is left untouched (early return, no
rewrite); otherwise every page is redrawn at its displayed size with the
metadata rotation baked into the content and the metadata cleared to 0.
The `Bool` records whether the file on disk was rewritten. -/
def flatten_pdf (f : PdfFile) : PdfFile × Bool :=
  if f.metaRotation = 0 then (f, false)
  else (⟨0, (f.contentRotation + f.metaRotation) % 360⟩, true)

/-- `FileManager.rotate_pdf_content` (file_manager.py:178-282): normalize
the requested angle mod 360, flatten first, then — only when the normalized
angle is nonzero — redraw every page rotated by that angle (the redrawn
document carries no rotation metadata). -/
def rotate_pdf_content (f : PdfFile) (rotationAngle : Nat) : PdfFile × Bool :=
  let fl := flatten_pdf f
  if rotationAngle % 360 = 0 then fl
  else (⟨0, (fl.1.contentRotation + rotationAngle % 360) % 360⟩, true)

/-- One AI rotation judgment (`ai_service.detect_rotation` payload):
candidate angle and confidence percentage. -/
structure RotationJudgment where
  rotation : Nat
  confidence : Nat
  deriving Repr, DecidableEq

/-- Step 1 of `DrawingService._run_analysis` (drawing_service.py:333-382):
`none` models the AI call raising (caught non-fatally).  The content is
rotated only when `detected_rotation != 0 and rotation_confidence >= 70`;
page metadata is never consulted; `drawing.rotation` is recorded as 0 on
every path.  Returns (file after the step, whether the file was rewritten,
recorded correction angle). -/
def pipelineRotationStep (ai : Option RotationJudgment) (f : PdfFile) :
    PdfFile × Bool × Nat :=
  match ai with
  | none => (f, false, 0)
  | some j =>
    if j.rotation ≠ 0 ∧ 70 ≤ j.confidence then
      ((rotate_pdf_content f j.rotation).1, (rotate_pdf_content f j.rotation).2, 0)
    else (f, false, 0)

/-- `FileManager.auto_correct_rotation` (file_manager.py:296-361): reads the
metadata angle, asks the AI service when available (`none` models both "no
service" and "AI call raised"), adopts the AI angle when confidence ≥ 70 and
otherwise the metadata angle, and corrects a nonzero adopted angle by
rotating the content by its negation (Python `-final % 360`).  Returns the
corrected file and the angle that was corrected.  The upload pipeline never
invokes this: `create_drawing` calls `save_pdf(..., auto_rotate=False)`
(drawing_service.py:180-182). -/
def auto_correct_rotation (ai : Option RotationJudgment) (f : PdfFile) :
    PdfFile × Nat :=
  let finalRotation :=
    match ai with
    | some j => if 70 ≤ j.confidence then j.rotation else f.metaRotation
    | none => f.metaRotation
  if finalRotation ≠ 0 then
    ((rotate_pdf_content f ((360 - finalRotation % 360) % 360)).1, finalRotation)
  else (f, 0)

/-- C3 counterexample: a single-page PDF with embedded 90° rotation metadata
whose AI rotation call fails is left completely untouched by the pipeline's
rotation step — the stored file keeps metadata 90 and unrotated content,
not the claimed "metadata 0 with content physically rotated to 90°"; the
recorded correction angle is 0. -/
theorem rotation_metadata_fallback_counterexample :
    pipelineRotationStep none ⟨90, 0⟩ = (⟨90, 0⟩, false, 0) ∧
    (pipelineRotationStep none ⟨90, 0⟩).1.metaRotation = 90 ∧
    pipelineRotationStep none ⟨90, 0⟩ ≠ ((⟨0, 90⟩ : PdfFile), true, 0) := by
  refine ⟨rfl, rfl, ?_⟩
  decide

/-- C3 amended: in the pipeline (`_run_analysis`), the AI angle is applied
only when confidence ≥ 70 AND the detected angle is nonzero; when the AI
call fails or confidence < 70 the page's metadata angle is NOT adopted —
no rotation of any kind is applied, the file (metadata included) is left
as-is, and the recorded correction angle is 0.  The metadata fallback rule
of the claim exists only in `FileManager.auto_correct_rotation`, which the
upload pipeline does not call. -/
theorem rotation_decision_amended :
    (∀ f : PdfFile, pipelineRotationStep none f = (f, false, 0)) ∧
    (∀ (j : RotationJudgment) (f : PdfFile), j.confidence < 70 →
      pipelineRotationStep (some j) f = (f, false, 0)) ∧
    (∀ (j : RotationJudgment) (f : PdfFile),
      70 ≤ j.confidence → j.rotation ≠ 0 →
      pipelineRotationStep (some j) f =
        ((rotate_pdf_content f j.rotation).1,
          (rotate_pdf_content f j.rotation).2, 0)) ∧
    (∀ (j : RotationJudgment) (f : PdfFile),
      (auto_correct_rotation (some j) f).2 =
        if 70 ≤ j.confidence then j.rotation else f.metaRotation) ∧
    (∀ f : PdfFile, (auto_correct_rotation none f).2 = f.metaRotation) := by
  refine ⟨fun f => rfl, ?_, ?_, ?_, ?_⟩
  · intro j f h
    simp only [pipelineRotationStep]
    rw [if_neg (fun hc => absurd hc.2 (by omega))]
  · intro j f h1 h2
    simp only [pipelineRotationStep]
    rw [if_pos ⟨h2, h1⟩]
  · intro j f
    simp only [auto_correct_rotation]
    by_cases hc : 70 ≤ j.confidence
    · rw [if_pos hc]
      by_cases hz : j.rotation ≠ 0
      · rw [if_pos hz]
      · rw [if_neg hz]
        simp only [ne_eq, not_not] at hz
        omega
    · rw [if_neg hc]
      by_cases hz : f.metaRotation ≠ 0
      · rw [if_pos hz]
      · rw [if_neg hz]
        simp only [ne_eq, not_not] at hz
        omega
  · intro f
    simp only [auto_correct_rotation]
    by_cases hz : f.metaRotation ≠ 0
    · rw [if_pos hz]
    · rw [if_neg hz]
      simp only [ne_eq, not_not] at hz
      omega

/-- Witness for `rotation_decision_amended`: the hypotheses discharged at
concrete judgments and files. -/
theorem rotation_decision_amended_witness :
    ((42 : Nat) < 70 ∧
      pipelineRotationStep (some ⟨90, 42⟩) ⟨90, 0⟩ = (⟨90, 0⟩, false, 0)) ∧
    ((70 : Nat) ≤ 95 ∧ (90 : Nat) ≠ 0 ∧
      pipelineRotationStep (some ⟨90, 95⟩) ⟨0, 0⟩ = (⟨0, 90⟩, true, 0)) := by
  refine ⟨⟨by omega, ?_⟩, by omega, by omega, ?_⟩
  · exact rotation_decision_amended.2.1 ⟨90, 42⟩ ⟨90, 0⟩ (by decide)
  · have h := rotation_decision_amended.2.2.1 ⟨90, 95⟩ ⟨0, 0⟩ (by decide) (by decide)
    rw [h]
    decide

/-- C9: rotation normalization is a no-op on already-normalized input —
flattening a page whose metadata rotation is 0 returns without rewriting
the file; the pipeline performs no content rotation when the detected angle
is 0 or the confidence is below 70 (recorded correction angle 0); and a
flattened file flattens again without a rewrite. -/
theorem rotation_normalizer_idempotent :
    (∀ f : PdfFile, f.metaRotation = 0 → flatten_pdf f = (f, false)) ∧
    (∀ (j : RotationJudgment) (f : PdfFile), j.rotation = 0 →
      pipelineRotationStep (some j) f = (f, false, 0)) ∧
    (∀ (j : RotationJudgment) (f : PdfFile), j.confidence < 70 →
      pipelineRotationStep (some j) f = (f, false, 0)) ∧
    (∀ f : PdfFile, (flatten_pdf f).1.metaRotation = 0 ∨
      flatten_pdf f = (f, false)) ∧
    (∀ f : PdfFile, flatten_pdf (flatten_pdf f).1 = ((flatten_pdf f).1, false) ∨
      f.metaRotation ≠ 0 ∧ flatten_pdf f = (f, false)) := by
  have hflat : ∀ f : PdfFile, f.metaRotation = 0 → flatten_pdf f = (f, false) := by
    intro f h
    unfold flatten_pdf
    rw [if_pos h]
  refine ⟨hflat, ?_, ?_, ?_, ?_⟩
  · intro j f h
    simp only [pipelineRotationStep]
    rw [if_neg (fun hc => hc.1 h)]
  · intro j f h
    simp only [pipelineRotationStep]
    rw [if_neg (fun hc => absurd hc.2 (by omega))]
  · intro f
    by_cases h : f.metaRotation = 0
    · right
      exact hflat f h
    · left
      unfold flatten_pdf
      rw [if_neg h]
  · intro f
    left
    by_cases h : f.metaRotation = 0
    · rw [hflat f h]
      exact hflat f h
    · have h1 : flatten_pdf f = (⟨0, (f.contentRotation + f.metaRotation) % 360⟩, true) := by
        unfold flatten_pdf
        rw [if_neg h]
      rw [h1]
      exact hflat _ rfl

/-- Witness for `rotation_normalizer_idempotent` at concrete inputs. -/
theorem rotation_normalizer_idempotent_witness :
    ((⟨0, 0⟩ : PdfFile).metaRotation = 0 ∧
      flatten_pdf ⟨0, 0⟩ = (⟨0, 0⟩, false)) ∧
    ((0 : Nat) = 0 ∧
      pipelineRotationStep (some ⟨0, 99⟩) ⟨0, 0⟩ = (⟨0, 0⟩, false, 0)) ∧
    ((30 : Nat) < 70 ∧
      pipelineRotationStep (some ⟨180, 30⟩) ⟨0, 0⟩ = (⟨0, 0⟩, false, 0)) := by
  refine ⟨⟨rfl, ?_⟩, ⟨rfl, ?_⟩, ⟨by omega, ?_⟩⟩
  · exact rotation_normalizer_idempotent.1 ⟨0, 0⟩ rfl
  · exact rotation_normalizer_idempotent.2.1 ⟨0, 99⟩ ⟨0, 0⟩ rfl
  · exact rotation_normalizer_idempotent.2.2.1 ⟨180, 30⟩ ⟨0, 0⟩ (by decide)

/-! ## AI client retry policy (`claude_client.invoke_with_text`) -/

/-- Outcome of one underlying Bedrock invocation, as classified by the
`except` clauses of `invoke_with_text` (claude_client.py:204-229). -/
inductive BedrockOutcome
  | success
  | throttling
  | authExpired
  | noCredentials
  | otherClientError
  deriving Repr, DecidableEq

/-- The exception kinds that can escape one execution of the body. -/
inductive InvokeError
  | awsAuthenticationError
  | clientError
  | claudeClientError
  deriving Repr, DecidableEq

/-- One execution of the body of `invoke_with_text`
(claude_client.py:149-229): throttling-class `ClientError`s
(`ThrottlingException`, `TooManyRequestsException`) are re-raised as-is;
auth-class codes and missing credentials raise `AWSAuthenticationError`;
any other `ClientError` raises `ClaudeClientError`. -/
def invokeOnce (o : BedrockOutcome) : Except InvokeError Unit :=
  match o with
  | .success => .ok ()
  | .throttling => .error .clientError
  | .authExpired => .error .awsAuthenticationError
  | .noCredentials => .error .awsAuthenticationError
  | .otherClientError => .error .claudeClientError

/-- `retry_if_exception_type(ClientError)`: only a propagating botocore
`ClientError` is retryable; `AWSAuthenticationError` and
`ClaudeClientError` are not `ClientError` subclasses. -/
def retryableError (e : InvokeError) : Bool :=
  match e with
  | .clientError => true
  | .awsAuthenticationError => false
  | .claudeClientError => false

/-- `wait_exponential(multiplier=1, min=2, max=10)`: the backoff slept after
failed attempt `attemptNumber`, clamped into the [2, 10] second band. -/
def waitExponentialSeconds (attemptNumber : Nat) : Nat :=
  max 2 (min (2 ^ attemptNumber) 10)

/-- `@retry(stop=stop_after_attempt(3), retry=retry_if_exception_type(ClientError),
reraise=True)` (claude_client.py:143-148): run the body, retry retryable
errors while attempts remain, re-raise the last underlying error once
attempts are exhausted.  Returns the final result and the total number of
attempts made. -/
def tenacityRun (body : Nat → Except InvokeError Unit) :
    Nat → Nat → Except InvokeError Unit × Nat
  | attemptNumber, 0 => (body attemptNumber, attemptNumber)
  | attemptNumber, 1 => (body attemptNumber, attemptNumber)
  | attemptNumber, remaining + 2 =>
    match body attemptNumber with
    | .ok u => (.ok u, attemptNumber)
    | .error e =>
      if retryableError e then tenacityRun body (attemptNumber + 1) (remaining + 1)
      else (.error e, attemptNumber)

/-- `invoke_with_text` under a given sequence of Bedrock outcomes (the k-th
value is the outcome of attempt k): 3 attempts allowed, starting at attempt
number 1. -/
def invoke_with_text (outcomes : Nat → BedrockOutcome) :
    Except InvokeError Unit × Nat :=
  tenacityRun (fun k => invokeOnce (outcomes k)) 1 3

/-- C5: a persistently throttled call is retried with waits clamped into
the 2–10 second exponential-backoff band and fails after exactly 3 total
attempts with the underlying transient error; an authentication-class
failure raises `AWSAuthenticationError` on the first attempt and is never
retried; throttling resolved before the third attempt succeeds. -/
theorem ai_client_retry_policy :
    invoke_with_text (fun _ => .throttling) = (.error .clientError, 3) ∧
    invoke_with_text (fun _ => .authExpired) =
      (.error .awsAuthenticationError, 1) ∧
    invoke_with_text (fun _ => .noCredentials) =
      (.error .awsAuthenticationError, 1) ∧
    invoke_with_text (fun k => if k < 3 then .throttling else .success) =
      (.ok (), 3) ∧
    invoke_with_text (fun _ => .otherClientError) =
      (.error .claudeClientError, 1) ∧
    (∀ n : Nat, 2 ≤ waitExponentialSeconds n ∧ waitExponentialSeconds n ≤ 10) ∧
    retryableError .clientError = true ∧
    retryableError .awsAuthenticationError = false := by
  refine ⟨rfl, rfl, rfl, rfl, rfl, ?_, rfl, rfl⟩
  intro n
  constructor
  · exact Nat.le_max_left 2 _
  · exact Nat.max_le.mpr ⟨by omega, Nat.min_le_right _ _⟩

/-! ## Pipeline persistence model (`DrawingService._run_analysis`)

The database session is a `PipelineDB` value; `commit()` appends the current
session state to the trace of committed snapshots.  The final committed
state is the last snapshot. -/

/-- One element of the AI field-extraction payload
(`fields_result["fields"]`). -/
structure FieldData where
  name : String
  value : String
  confidence : Nat
  deriving Repr, DecidableEq

/-- An `ExtractedField` child row (models/extracted_field). -/
structure ExtractedFieldRow where
  fieldName : String
  fieldValue : String
  confidence : Nat
  deriving Repr, DecidableEq

/-- One element of the AI balloon payload (`balloons_result["balloons"]`). -/
structure BalloonData where
  balloonNumber : String
  partName : String
  quantity : Option Nat
  upperText : String
  lowerText : String
  confidence : Nat
  x : Nat
  y : Nat
  deriving Repr, DecidableEq

/-- A `Balloon` child row (models/balloon.py). -/
structure BalloonRow where
  balloonNumber : String
  partName : String
  quantity : Option Nat
  upperText : String
  lowerText : String
  confidence : Nat
  x : Nat
  y : Nat
  deriving Repr, DecidableEq

/-- One element of the AI revision payload
(`revisions_result["revisions"]`). -/
structure RevisionData where
  revisionNumber : String
  revisionDate : Option String
  description : String
  author : String
  confidence : Nat
  deriving Repr, DecidableEq

/-- A `Revision` child row (models/revision); the `%Y-%m-%d` parse of the
date string is carried through unparsed (invalid dates become NULL in the
source, which no claim touches). -/
structure RevisionRow where
  revisionNumber : String
  revisionDate : Option String
  revisionContent : String
  reviser : String
  confidence : Nat
  deriving Repr, DecidableEq

/-- AI classification payload. -/
structure ClassificationData where
  category : Option String
  confidence : Option Nat
  deriving Repr, DecidableEq

/-- AI summary payload. -/
structure SummaryData where
  summary : String
  shapeFeatures : List (String × String)
  deriving Repr, DecidableEq

/-- The scalar columns of one `Drawing` row touched by the pipeline. -/
structure DrawingRow where
  status : String
  rotation : Option Nat
  thumbnailPath : String
  classification : Option String
  classificationConfidence : Option Nat
  summary : Option String
  shapeFeatures : List (String × String)
  analyzed : Bool
  deriving Repr, DecidableEq

/-- One Drawing together with its owned child collections. -/
structure PipelineDB where
  drawing : DrawingRow
  extracted_fields : List ExtractedFieldRow
  balloons : List BalloonRow
  revisions : List RevisionRow
  deriving Repr, DecidableEq

/-- The outcome of each fallible step of one `_run_analysis` run.  `none`
models the corresponding call raising.  Rotation detection and thumbnail
generation failures are non-fatal (caught with a warning); a `none` in any
of the five extraction stages aborts the run. -/
structure RunInputs where
  rotationResult : Option RotationJudgment
  thumbnailResult : Option String
  fieldsResult : Option (List FieldData)
  classificationResult : Option ClassificationData
  balloonsResult : Option (List BalloonData)
  revisionsResult : Option (List RevisionData)
  summaryResult : Option SummaryData
  deriving DecidableEq

/-- Field persistence with the drawing-number correction
(drawing_service.py:456-472): `if field_name == "図番" and field_value:
field_value = _correct_drawing_number(field_value)`. -/
def mkExtractedFieldRow (fd : FieldData) : ExtractedFieldRow :=
  { fieldName := fd.name
    fieldValue :=
      if fd.name = "図番" ∧ fd.value ≠ "" then correct_drawing_number fd.value
      else fd.value
    confidence := fd.confidence }

def mkBalloonRow (bd : BalloonData) : BalloonRow :=
  { balloonNumber := bd.balloonNumber, partName := bd.partName
    quantity := bd.quantity, upperText := bd.upperText
    lowerText := bd.lowerText, confidence := bd.confidence
    x := bd.x, y := bd.y }

def mkRevisionRow (rd : RevisionData) : RevisionRow :=
  { revisionNumber := rd.revisionNumber, revisionDate := rd.revisionDate
    revisionContent := rd.description, reviser := rd.author
    confidence := rd.confidence }

/-- Result of one `_run_analysis` call: the final committed database state,
every committed snapshot in commit order, and whether an exception
propagated to the caller. -/
structure RunResult where
  committed : PipelineDB
  trace : List PipelineDB
  raised : Bool
  deriving DecidableEq

def setStatus (db : PipelineDB) (s : String) : PipelineDB :=
  { db with drawing := { db.drawing with status := s } }

/-- The `except` block of `_run_analysis` (drawing_service.py:543-547): set
status "failed", commit (which also flushes any pending session changes),
then re-raise. -/
def failRun (session : PipelineDB) (tr : List PipelineDB) : RunResult :=
  { committed := setStatus session "failed"
    trace := tr ++ [setStatus session "failed"]
    raised := true }

/-- Stages 2-6 and the single save block of `_run_analysis`
(drawing_service.py:402-547).  The five extraction stages each are one AI
call with no database write; every stage result is persisted together in
the one commit at line 527, which also flips the status to "unapproved".
The cosmetic rename step (non-fatal, no status/child writes) is outside
this model. -/
def runStages (inp : RunInputs) (s : PipelineDB) (tr : List PipelineDB) :
    RunResult :=
  match inp.fieldsResult with
  | none => failRun s tr
  | some fieldsData =>
    match inp.classificationResult with
    | none => failRun s tr
    | some classData =>
      match inp.balloonsResult with
      | none => failRun s tr
      | some balloonsData =>
        match inp.revisionsResult with
        | none => failRun s tr
        | some revisionsData =>
          match inp.summaryResult with
          | none => failRun s tr
          | some summaryData =>
            let s' : PipelineDB :=
              { drawing := { s.drawing with
                  classification := classData.category
                  classificationConfidence := classData.confidence
                  summary := some summaryData.summary
                  shapeFeatures := summaryData.shapeFeatures
                  status := "unapproved"
                  analyzed := true }
                extracted_fields :=
                  s.extracted_fields ++ fieldsData.map mkExtractedFieldRow
                balloons := s.balloons ++ balloonsData.map mkBalloonRow
                revisions := s.revisions ++ revisionsData.map mkRevisionRow }
            { committed := s', trace := tr ++ [s'], raised := false }

/-- `DrawingService._run_analysis` (drawing_service.py:291-547).  Commit
points: status "analyzing" (line 304), the thumbnail update when thumbnail
generation succeeds (line 392, which also flushes the pending
`drawing.rotation = 0` write), the one save-block commit (line 527), and
the failure commit (line 546).  `drawing.rotation` is set to 0 whether or
not rotation detection succeeded (lines 374, 379); the file-level effect of
the rotation step is `pipelineRotationStep`. -/
def run_analysis (inp : RunInputs) (db0 : PipelineDB) : RunResult :=
  let s1 := setStatus db0 "analyzing"
  let s2 := { s1 with drawing := { s1.drawing with rotation := some 0 } }
  match inp.thumbnailResult with
  | some thumbName =>
    runStages inp
      { s2 with drawing := { s2.drawing with thumbnailPath := thumbName } }
      [s1, { s2 with drawing := { s2.drawing with thumbnailPath := thumbName } }]
  | none => runStages inp s2 [s1]

/-- `reanalyze_drawing` (api/v1/drawings.py:281-301): the endpoint looks the
Drawing up and calls `_run_analysis` on it directly — with no child-row
deletion and no reset to "pending" beforehand. -/
def reanalyze_drawing (inp : RunInputs) (db : PipelineDB) : RunResult :=
  run_analysis inp db

/-- `DrawingService.update_drawing` (drawing_service.py:705-752) restricted
to the `status` column: any requested value is written unconditionally
(`setattr(drawing, key, value)` with no transition guard). -/
def update_drawing_status (current : String) (statusUpdate : Option String) :
    String :=
  match statusUpdate with
  | some v => v
  | none => current

/-- `DrawingService.approve_drawing` (drawing_service.py:794-807):
`update_drawing(drawing_id, {"status": "approved", ...})`, with no check of
the current status. -/
def approve_drawing (current : String) : String :=
  update_drawing_status current (some "approved")

/-- `DrawingService.unapprove_drawing` (drawing_service.py:809-819). -/
def unapprove_drawing (current : String) : String :=
  update_drawing_status current (some "unapproved")

/-- The status edges documented by the spec's state machine (§4.4):
pending→analyzing, analyzing→unapproved, analyzing→failed,
unapproved⇄approved, and any state→pending. -/
def documentedEdge (s t : String) : Bool :=
  (s = "pending" ∧ t = "analyzing") || (s = "analyzing" ∧ t = "unapproved") ||
    (s = "analyzing" ∧ t = "failed") || (s = "unapproved" ∧ t = "approved") ||
    (s = "approved" ∧ t = "unapproved") || (t = "pending")

/-! Concrete fixtures for the pipeline theorems. -/

def sampleField : FieldData := ⟨"図番", "NAX13722D", 90⟩

def sampleBalloon : BalloonData := ⟨"1", "部品A", some 2, "U", "L", 80, 10, 20⟩

def sampleRevision : RevisionData :=
  ⟨"A", some "2024-01-02", "改訂内容", "担当者", 75⟩

/-- A run in which every fallible step succeeds. -/
def fullInputs : RunInputs :=
  ⟨some ⟨0, 90⟩, some "thumb.png", some [sampleField],
    some ⟨some "部品図", some 88⟩, some [sampleBalloon],
    some [sampleRevision], some ⟨"要約テキスト", []⟩⟩

/-- A run in which only the final summary stage raises. -/
def summaryFailInputs : RunInputs := { fullInputs with summaryResult := none }

def pendingDrawing : DrawingRow :=
  ⟨"pending", none, "pending.png", none, none, none, [], false⟩

/-- A freshly created Drawing with no children. -/
def emptyDB : PipelineDB := ⟨pendingDrawing, [], [], []⟩

def oldFieldRow : ExtractedFieldRow := ⟨"図番", "OLDVAL", 50⟩

def oldBalloonRow : BalloonRow := ⟨"9", "旧部品", none, "", "", 40, 1, 2⟩

def oldRevisionRow : RevisionRow := ⟨"Z", none, "旧改訂", "旧担当", 30⟩

/-- A previously analyzed Drawing that still owns its prior-run children. -/
def staleDB : PipelineDB :=
  ⟨⟨"unapproved", some 0, "old.png", some "組図", some 70, some "旧要約",
      [], true⟩,
    [oldFieldRow], [oldBalloonRow], [oldRevisionRow]⟩

/-- An approved Drawing (no children, for the transition fixtures). -/
def approvedDB : PipelineDB :=
  ⟨⟨"approved", some 0, "a.png", some "部品図", some 90, some "s", [], true⟩,
    [], [], []⟩

theorem failed_ne_analyzing : ("failed" : String) ≠ "analyzing" := by decide

theorem unapproved_ne_analyzing : ("unapproved" : String) ≠ "analyzing" := by
  decide

theorem getLast?_append_singleton {α : Type} :
    ∀ (l : List α) (a : α), (l ++ [a]).getLast? = some a
  | [], _ => rfl
  | [_], _ => rfl
  | b :: c :: l, a => by
    rw [List.cons_append, List.cons_append, List.getLast?_cons_cons,
      ← List.cons_append]
    exact getLast?_append_singleton (c :: l) a

/-- The stage sequence performs exactly one commit of its own: its trace is
the incoming trace plus the final committed state. -/
theorem runStages_trace_eq (inp : RunInputs) (s : PipelineDB)
    (tr : List PipelineDB) :
    (runStages inp s tr).trace = tr ++ [(runStages inp s tr).committed] := by
  obtain ⟨rot, thumb, fields, cls, bal, rev, summ⟩ := inp
  cases fields <;> cases cls <;> cases bal <;> cases rev <;> cases summ <;> rfl

/-- The stage sequence commits status "failed" or "unapproved". -/
theorem runStages_status (inp : RunInputs) (s : PipelineDB)
    (tr : List PipelineDB) :
    (runStages inp s tr).committed.drawing.status = "failed" ∨
    (runStages inp s tr).committed.drawing.status = "unapproved" := by
  obtain ⟨rot, thumb, fields, cls, bal, rev, summ⟩ := inp
  cases fields <;> cases cls <;> cases bal <;> cases rev <;> cases summ <;>
    first
      | exact Or.inl rfl
      | exact Or.inr rfl

/-- In every outcome of the stage sequence the committed child collections
extend the session's collections (rows are only ever appended). -/
theorem runStages_children (inp : RunInputs) (s : PipelineDB)
    (tr : List PipelineDB) :
    (∃ t, (runStages inp s tr).committed.extracted_fields =
      s.extracted_fields ++ t) ∧
    (∃ t, (runStages inp s tr).committed.balloons = s.balloons ++ t) ∧
    (∃ t, (runStages inp s tr).committed.revisions = s.revisions ++ t) := by
  obtain ⟨rot, thumb, fields, cls, bal, rev, summ⟩ := inp
  cases fields <;> cases cls <;> cases bal <;> cases rev <;> cases summ <;>
    refine ⟨?_, ?_, ?_⟩ <;>
    first
      | exact ⟨[], (List.append_nil _).symm⟩
      | exact ⟨_, rfl⟩

/-- C1 counterexample: in a run whose field, classification, balloon and
revision stages all succeed and whose summary stage raises, NOTHING from
the earlier successful stages is committed — the committed database holds
no extracted fields, no balloons, no revisions and no classification; all
stage results were only accumulated in memory for the single save commit
that never executed.  Only status "failed" is committed. -/
theorem stage_results_not_committed_separately :
    (run_analysis summaryFailInputs emptyDB).raised = true ∧
    (run_analysis summaryFailInputs emptyDB).committed.extracted_fields = [] ∧
    (run_analysis summaryFailInputs emptyDB).committed.balloons = [] ∧
    (run_analysis summaryFailInputs emptyDB).committed.revisions = [] ∧
    (run_analysis summaryFailInputs emptyDB).committed.drawing.classification
      = none ∧
    (run_analysis summaryFailInputs emptyDB).committed.drawing.status
      = "failed" :=
  ⟨rfl, rfl, rfl, rfl, rfl, rfl⟩

/-- C1 amended: `_run_analysis` commits all five extraction stages' output
in ONE commit after the final (summary) stage succeeds.  If a later stage
raises (for example the summary stage), none of the earlier successful
stages' results reaches the database — the committed state keeps the
child rows and classification it had before the run, and only the status
("analyzing", a successful thumbnail update, and finally "failed") is
committed.  On full success all stage outputs appear together and the
status becomes "unapproved". -/
theorem single_commit_per_run_amended :
    (∀ (inp : RunInputs) (db : PipelineDB), inp.summaryResult = none →
      (run_analysis inp db).raised = true ∧
      (run_analysis inp db).committed.drawing.status = "failed" ∧
      (run_analysis inp db).committed.extracted_fields =
        db.extracted_fields ∧
      (run_analysis inp db).committed.balloons = db.balloons ∧
      (run_analysis inp db).committed.revisions = db.revisions ∧
      (run_analysis inp db).committed.drawing.classification =
        db.drawing.classification) ∧
    (∀ (inp : RunInputs) (db : PipelineDB) (fieldsData : List FieldData)
        (classData : ClassificationData) (balloonsData : List BalloonData)
        (revisionsData : List RevisionData) (summaryData : SummaryData),
      inp.fieldsResult = some fieldsData →
      inp.classificationResult = some classData →
      inp.balloonsResult = some balloonsData →
      inp.revisionsResult = some revisionsData →
      inp.summaryResult = some summaryData →
      (run_analysis inp db).raised = false ∧
      (run_analysis inp db).committed.drawing.status = "unapproved" ∧
      (run_analysis inp db).committed.extracted_fields =
        db.extracted_fields ++ fieldsData.map mkExtractedFieldRow ∧
      (run_analysis inp db).committed.balloons =
        db.balloons ++ balloonsData.map mkBalloonRow ∧
      (run_analysis inp db).committed.revisions =
        db.revisions ++ revisionsData.map mkRevisionRow) := by
  constructor
  · intro inp db hsum
    obtain ⟨rot, thumb, fields, cls, bal, rev, summ⟩ := inp
    have hs : summ = none := hsum
    subst hs
    cases thumb <;> cases fields <;> cases cls <;> cases bal <;> cases rev <;>
      exact ⟨rfl, rfl, rfl, rfl, rfl, rfl⟩
  · intro inp db fieldsData classData balloonsData revisionsData summaryData
      hf hc hb hr hsu
    obtain ⟨rot, thumb, fields, cls, bal, rev, summ⟩ := inp
    have h1 : fields = some fieldsData := hf
    have h2 : cls = some classData := hc
    have h3 : bal = some balloonsData := hb
    have h4 : rev = some revisionsData := hr
    have h5 : summ = some summaryData := hsu
    subst h1 h2 h3 h4 h5
    cases thumb <;> exact ⟨rfl, rfl, rfl, rfl, rfl⟩

/-- Witness for `single_commit_per_run_amended` at concrete inputs. -/
theorem single_commit_per_run_amended_witness :
    (summaryFailInputs.summaryResult = none ∧
      (run_analysis summaryFailInputs emptyDB).raised = true) ∧
    (fullInputs.fieldsResult = some [sampleField] ∧
      (run_analysis fullInputs emptyDB).committed.extracted_fields =
        emptyDB.extracted_fields ++ [sampleField].map mkExtractedFieldRow) := by
  refine ⟨⟨rfl, ?_⟩, ⟨rfl, ?_⟩⟩
  · exact (single_commit_per_run_amended.1 summaryFailInputs emptyDB rfl).1
  · exact (single_commit_per_run_amended.2 fullInputs emptyDB [sampleField]
      ⟨some "部品図", some 88⟩ [sampleBalloon] [sampleRevision]
      ⟨"要約テキスト", []⟩ rfl rfl rfl rfl rfl).2.2.1

/-- C2 counterexample: re-analysis of a Drawing that still owns
ExtractedField/Balloon/Revision rows from an earlier run deletes nothing:
after the new run's save commit the prior rows are still present alongside
the new ones (2 field rows instead of 1), so the leftover count from the
prior run is not zero. -/
theorem reanalysis_keeps_stale_children :
    (reanalyze_drawing fullInputs staleDB).raised = false ∧
    oldFieldRow ∈
      (reanalyze_drawing fullInputs staleDB).committed.extracted_fields ∧
    oldBalloonRow ∈ (reanalyze_drawing fullInputs staleDB).committed.balloons ∧
    oldRevisionRow ∈
      (reanalyze_drawing fullInputs staleDB).committed.revisions ∧
    (reanalyze_drawing fullInputs
      staleDB).committed.extracted_fields.length = 2 := by
  refine ⟨rfl, ?_, ?_, ?_, rfl⟩ <;> decide

/-- C2 amended: the re-analysis endpoint never deletes prior child rows —
`_run_analysis` only appends, so after any re-analysis run (committed
successfully or failed) every prior ExtractedField/Balloon/Revision row is
still an initial segment of the stored collection, with the new run's rows
appended after it. -/
theorem reanalysis_appends_children_amended :
    ∀ (inp : RunInputs) (db : PipelineDB),
      (∃ t, (reanalyze_drawing inp db).committed.extracted_fields =
        db.extracted_fields ++ t) ∧
      (∃ t, (reanalyze_drawing inp db).committed.balloons =
        db.balloons ++ t) ∧
      (∃ t, (reanalyze_drawing inp db).committed.revisions =
        db.revisions ++ t) := by
  intro inp db
  obtain ⟨rot, thumb, fields, cls, bal, rev, summ⟩ := inp
  cases thumb with
  | none => exact runStages_children ⟨rot, none, fields, cls, bal, rev, summ⟩ _ _
  | some th =>
    exact runStages_children ⟨rot, some th, fields, cls, bal, rev, summ⟩ _ _

/-- C6: whatever the stage outcomes, a terminated run's committed status is
"failed" exactly when an exception propagates and "unapproved" otherwise —
never "analyzing" — and that final status write is the last committed
snapshot, i.e. it is committed before the exception reaches the caller. -/
theorem no_drawing_left_analyzing :
    ∀ (inp : RunInputs) (db : PipelineDB),
      (run_analysis inp db).committed.drawing.status =
        (if (run_analysis inp db).raised then "failed" else "unapproved") ∧
      (run_analysis inp db).committed.drawing.status ≠ "analyzing" ∧
      (run_analysis inp db).trace.getLast? =
        some (run_analysis inp db).committed := by
  intro inp db
  obtain ⟨rot, thumb, fields, cls, bal, rev, summ⟩ := inp
  cases thumb <;> cases fields <;> cases cls <;> cases bal <;> cases rev <;>
    cases summ <;>
    first
      | exact ⟨rfl, failed_ne_analyzing, getLast?_append_singleton _ _⟩
      | exact ⟨rfl, unapproved_ne_analyzing, getLast?_append_singleton _ _⟩

/-- Witness for `no_drawing_left_analyzing` on a concrete failed run: the
failed status is the last committed snapshot and is not "analyzing". -/
theorem no_drawing_left_analyzing_witness :
    (run_analysis summaryFailInputs emptyDB).committed.drawing.status ≠
      "analyzing" ∧
    (run_analysis summaryFailInputs emptyDB).trace.getLast? =
      some (run_analysis summaryFailInputs emptyDB).committed :=
  ⟨(no_drawing_left_analyzing summaryFailInputs emptyDB).2.1,
    (no_drawing_left_analyzing summaryFailInputs emptyDB).2.2⟩

/-- C4 counterexample: `approve_drawing` on a "failed" Drawing writes
"approved" — an edge outside the documented state machine, and a further
write to a Drawing that had reached "failed"; likewise the re-analysis
endpoint moves an "approved" Drawing straight to "analyzing" (its first
committed snapshot) without passing through "pending". -/
theorem undocumented_status_transition :
    approve_drawing "failed" = "approved" ∧
    documentedEdge "failed" "approved" = false ∧
    ((reanalyze_drawing fullInputs approvedDB).trace.map
      (fun d => d.drawing.status)).head? = some "analyzing" ∧
    documentedEdge "approved" "analyzing" = false :=
  ⟨rfl, by decide, rfl, by decide⟩

/-- C4 amended: the program's status writes are unguarded — approve /
unapprove / update_drawing write their target status from ANY current
status (including "failed", which can therefore receive further writes),
and re-analysis enters "analyzing" directly from any state; within one
pipeline run, however, every committed status is one of "analyzing",
"unapproved", "failed". -/
theorem status_writes_amended :
    (∀ s : String, approve_drawing s = "approved") ∧
    (∀ s : String, unapprove_drawing s = "unapproved") ∧
    (∀ s v : String, update_drawing_status s (some v) = v) ∧
    (∀ (inp : RunInputs) (db : PipelineDB) (d : PipelineDB),
      d ∈ (run_analysis inp db).trace →
      d.drawing.status = "analyzing" ∨ d.drawing.status = "unapproved" ∨
        d.drawing.status = "failed") := by
  refine ⟨fun _ => rfl, fun _ => rfl, fun _ _ => rfl, ?_⟩
  intro inp db d hd
  obtain ⟨rot, thumb, fields, cls, bal, rev, summ⟩ := inp
  cases thumb with
  | none =>
    simp only [run_analysis] at hd
    rw [runStages_trace_eq] at hd
    rcases List.mem_append.mp hd with h | h
    · rw [List.mem_singleton] at h
      subst h
      exact Or.inl rfl
    · rw [List.mem_singleton] at h
      subst h
      rcases runStages_status ⟨rot, none, fields, cls, bal, rev, summ⟩ _ _
        with hs | hs
      · exact Or.inr (Or.inr hs)
      · exact Or.inr (Or.inl hs)
  | some th =>
    simp only [run_analysis] at hd
    rw [runStages_trace_eq] at hd
    rcases List.mem_append.mp hd with h | h
    · rcases List.mem_cons.mp h with rfl | h2
      · exact Or.inl rfl
      · rw [List.mem_singleton] at h2
        subst h2
        exact Or.inl rfl
    · rw [List.mem_singleton] at h
      subst h
      rcases runStages_status ⟨rot, some th, fields, cls, bal, rev, summ⟩ _ _
        with hs | hs
      · exact Or.inr (Or.inr hs)
      · exact Or.inr (Or.inl hs)

/-- Witness for `status_writes_amended`: the trace-membership hypothesis
discharged on a concrete run. -/
theorem status_writes_amended_witness :
    ((run_analysis fullInputs emptyDB).committed ∈
      (run_analysis fullInputs emptyDB).trace) ∧
    ((run_analysis fullInputs emptyDB).committed.drawing.status = "analyzing" ∨
      (run_analysis fullInputs emptyDB).committed.drawing.status =
        "unapproved" ∨
      (run_analysis fullInputs emptyDB).committed.drawing.status = "failed")
    := by
  refine ⟨by decide, ?_⟩
  exact status_writes_amended.2.2.2 fullInputs emptyDB _ (by decide)

/-! ## Upload path (`DrawingService.create_drawing` with
`run_analysis=True`, drawing_service.py:139-289) -/

/-- One page's `Drawing` row at upload level. -/
structure UploadRow where
  pageNumber : Nat
  pdfFilename : String
  drawing : DrawingRow
  deriving Repr, DecidableEq

/-- The committed rows plus the file store (drawings and thumbnails
directories). -/
structure SysState where
  rows : List UploadRow
  pdfs : List String
  thumbs : List String
  deriving Repr, DecidableEq

/-- `FileManager.delete_pdf` (file_manager.py:402-417): unlink the file if
present, no-op otherwise. -/
def delete_pdf (pdfs : List String) (filename : String) : List String :=
  pdfs.erase filename

/-- `FileManager.delete_thumbnail` (file_manager.py:488-503). -/
def delete_thumbnail (thumbs : List String) (filename : String) :
    List String :=
  thumbs.erase filename

/-- A freshly created page row (drawing_service.py:205-227): status
"pending" because analysis was requested, placeholder thumbnail. -/
def newUploadRow (pdfName : String) (pageNumber : Nat) : UploadRow :=
  { pageNumber := pageNumber
    pdfFilename := pdfName
    drawing :=
      { status := "pending", rotation := none,
        thumbnailPath := "pending.png", classification := none,
        classificationConfidence := none, summary := none,
        shapeFeatures := [], analyzed := false } }

/-- `DrawingService.create_drawing` on the `run_analysis=True` path
(drawing_service.py:160-289).  `save_pdf(..., auto_rotate=False)` stores
the artifact under a fresh generated name with NO rotation correction; one
row per page is created and committed; then the `AIAnalysisService` is
initialized — on failure (`aiInitOk = false`) every just-created row is
deleted together with its stored PDF and placeholder thumbnail, the
deletion is committed, and `DrawingServiceException` propagates (the
returned Bool); on success each page runs `_run_analysis`, whose own
failures are caught per page.  A zero page count raises after the file was
stored (no cleanup of the file).  Child rows created by per-page analysis
are modelled by `PipelineDB` (`run_analysis`); `SysState` carries the
upload-level artifacts this path touches. -/
def create_drawing_with_analysis (st : SysState) (pdfName : String)
    (pageCount : Nat) (aiInitOk : Bool) (pageInputs : Nat → RunInputs) :
    SysState × Bool :=
  let stSaved : SysState := { st with pdfs := st.pdfs ++ [pdfName] }
  if pageCount = 0 then (stSaved, true)
  else
    let newRows := (List.range pageCount).map (newUploadRow pdfName)
    let st1 : SysState := { stSaved with rows := st.rows ++ newRows }
    if aiInitOk then
      let analyzed := newRows.map (fun r =>
        { r with drawing :=
            (run_analysis (pageInputs r.pageNumber)
              ⟨r.drawing, [], [], []⟩).committed.drawing })
      ({ st1 with rows := st.rows ++ analyzed }, false)
    else
      ({ rows := st.rows
         pdfs := newRows.foldl (fun ps r => delete_pdf ps r.pdfFilename)
           st1.pdfs
         thumbs := newRows.foldl
           (fun ts r => delete_thumbnail ts r.drawing.thumbnailPath)
           st1.thumbs }, true)

theorem foldl_erase_of_not_mem {α β : Type} [DecidableEq β] (g : α → β) :
    ∀ (rs : List α) (ps : List β), (∀ r ∈ rs, g r ∉ ps) →
      rs.foldl (fun acc r => acc.erase (g r)) ps = ps
  | [], _, _ => rfl
  | r :: rs, ps, h => by
    have h0 : ps.erase (g r) = ps :=
      List.erase_of_not_mem (h r (List.mem_cons_self r rs))
    rw [List.foldl_cons, h0]
    exact foldl_erase_of_not_mem g rs ps
      (fun x hx => h x (List.mem_cons_of_mem r hx))

theorem foldl_erase_fresh {α β : Type} [DecidableEq β] (g : α → β) (a : β) :
    ∀ (rs : List α) (ps : List β), rs ≠ [] → (∀ r ∈ rs, g r = a) →
      a ∉ ps →
      rs.foldl (fun acc r => acc.erase (g r)) (ps ++ [a]) = ps := by
  intro rs ps hne hall hnotmem
  cases rs with
  | nil => exact absurd rfl hne
  | cons r rs' =>
    rw [List.foldl_cons, hall r (List.mem_cons_self r rs'),
      List.erase_append_right _ hnotmem, List.erase_cons_head,
      List.append_nil]
    exact foldl_erase_of_not_mem g rs' ps
      (fun x hx => (hall x (List.mem_cons_of_mem r hx)) ▸ hnotmem)

/-- C10: when an upload requests analysis and the AI analysis service fails
to initialize after the PDF was stored and the page rows committed,
`create_drawing` deletes every just-created Drawing row together with the
stored PDF file and its (placeholder) thumbnail, commits the deletion, and
raises `DrawingServiceException` — the committed system state is exactly
the pre-upload state. -/
theorem create_drawing_ai_init_failure_cleanup :
    ∀ (st : SysState) (pdfName : String) (pageCount : Nat)
      (pageInputs : Nat → RunInputs),
      pdfName ∉ st.pdfs → "pending.png" ∉ st.thumbs → 0 < pageCount →
      create_drawing_with_analysis st pdfName pageCount false pageInputs =
        (st, true) := by
  intro st pdfName pageCount pageInputs hpdf hthumb hpos
  have hne : ¬(pageCount = 0) := by omega
  have hrows : (List.range pageCount).map (newUploadRow pdfName) ≠ [] := by
    intro h
    have := congrArg List.length h
    simp [List.length_range] at this
    omega
  simp only [create_drawing_with_analysis, Bool.false_eq_true, if_false,
    if_neg hne]
  have hpdfs :
      ((List.range pageCount).map (newUploadRow pdfName)).foldl
        (fun ps r => delete_pdf ps r.pdfFilename) (st.pdfs ++ [pdfName]) =
      st.pdfs := by
    show ((List.range pageCount).map (newUploadRow pdfName)).foldl
      (fun ps r => ps.erase ((fun r : UploadRow => r.pdfFilename) r))
      (st.pdfs ++ [pdfName]) = st.pdfs
    refine foldl_erase_fresh (fun r : UploadRow => r.pdfFilename) pdfName _ _
      hrows ?_ hpdf
    intro r hr
    rcases List.mem_map.mp hr with ⟨i, _, rfl⟩
    rfl
  have hthumbs :
      ((List.range pageCount).map (newUploadRow pdfName)).foldl
        (fun ts r => delete_thumbnail ts r.drawing.thumbnailPath) st.thumbs =
      st.thumbs := by
    show ((List.range pageCount).map (newUploadRow pdfName)).foldl
      (fun ts r => ts.erase ((fun r : UploadRow => r.drawing.thumbnailPath) r))
      st.thumbs = st.thumbs
    refine foldl_erase_of_not_mem
      (fun r : UploadRow => r.drawing.thumbnailPath) _ _ ?_
    intro r hr
    rcases List.mem_map.mp hr with ⟨i, _, rfl⟩
    exact hthumb
  refine Prod.ext ?_ rfl
  show (⟨st.rows,
    ((List.range pageCount).map (newUploadRow pdfName)).foldl
      (fun ps r => delete_pdf ps r.pdfFilename) (st.pdfs ++ [pdfName]),
    ((List.range pageCount).map (newUploadRow pdfName)).foldl
      (fun ts r => delete_thumbnail ts r.drawing.thumbnailPath) st.thumbs⟩ :
    SysState) = st
  rw [hpdfs, hthumbs]

/-- Witness for `create_drawing_ai_init_failure_cleanup` on a concrete
upload into an empty store. -/
theorem create_drawing_ai_init_failure_cleanup_witness :
    ("u1.pdf" ∉ (⟨[], [], []⟩ : SysState).pdfs) ∧
    ("pending.png" ∉ (⟨[], [], []⟩ : SysState).thumbs) ∧
    0 < 2 ∧
    create_drawing_with_analysis ⟨[], [], []⟩ "u1.pdf" 2 false
      (fun _ => fullInputs) = (⟨[], [], []⟩, true) := by
  refine ⟨by decide, by decide, by omega, ?_⟩
  exact create_drawing_ai_init_failure_cleanup ⟨[], [], []⟩ "u1.pdf" 2
    (fun _ => fullInputs) (by decide) (by decide) (by omega)

end AiDrawing
